import Mathlib

/-!
Shallow embedding of the allocation core of `options-leverage-optimizer`
(`src/controllers/calculationService.ts`), over exact rational arithmetic.

JavaScript numbers are modelled as `ℚ`.  Consequences of this modelling:
* the JS truthiness guard `!x || x <= 0` on a number collapses to `x ≤ 0`
  (over the reals `!x` only adds `x = 0` and `NaN`, and `0 ≤ 0` already holds);
* the `isNaN` guards in the source can never fire over `ℚ` and are omitted;
* floating-point rounding disappears, so "within tolerance" statements are
  proved as exact equalities that imply the toleranced versions.
-/

/-- Record `OptionContract` from `src/types` as used by the calculation service:
`premium` and `delta` are quoted per share, `type` is `"call"` or `"put"`. -/
structure OptionContract where
  strike : ℚ
  expiry : String
  premium : ℚ
  delta : ℚ
  id : String
  type : String
deriving DecidableEq

/-- Record `CalculationResult` from `src/types`: the allocation outcome record.
`validationMessage` is `none` on the valid path (the source leaves the
optional field absent there). -/
structure CalculationResult where
  contract : OptionContract
  numberOfContracts : ℚ
  numberOfShares : ℚ
  totalCost : ℚ
  leverage : ℚ
  leverageDifference : ℚ
  deltaExposure : ℚ
  isValid : Bool
  validationMessage : Option String
deriving DecidableEq

/-- Record `StockData`: only the fields the calculation service reads. -/
structure StockData where
  symbol : String
  price : ℚ
deriving DecidableEq

/-- Record `UserInputs`: only the fields the calculation service reads. -/
structure UserInputs where
  totalEquity : ℚ
  leverage : ℚ
  selectedExpiry : String
  deltaMin : ℚ
  deltaMax : ℚ
deriving DecidableEq

/-- Method `CalculationService.calculateWithContracts` (the fixed-count solve,
`solveAtContracts` in the spec), translated line by line from
`calculationService.ts` lines 23–129. -/
def calculateWithContracts (contract : OptionContract)
    (stockPrice totalEquity leverage numberOfContracts : ℚ) : CalculationResult :=
  let S := stockPrice
  let O := contract.premium * 100
  let D := contract.delta * 100
  let T := totalEquity
  let L := leverage
  let C := numberOfContracts
  if S ≤ 0 ∨ O ≤ 0 ∨ D ≤ 0 ∨ T ≤ 0 ∨ L ≤ 0 then
    { contract := contract, numberOfContracts := 0, numberOfShares := 0,
      totalCost := 0, leverage := 0, leverageDifference := 0, deltaExposure := 0,
      isValid := false, validationMessage := some "Invalid input values" }
  else
    let contractCost := O * C
    if T < contractCost then
      { contract := contract, numberOfContracts := C, numberOfShares := 0,
        totalCost := contractCost, leverage := 0, leverageDifference := 0,
        deltaExposure := 0, isValid := false,
        validationMessage := some "Contract cost exceeds available equity" }
    else
      let remainingEquity := T - contractCost
      let N := remainingEquity / S
      if N < 0 then
        { contract := contract, numberOfContracts := C, numberOfShares := 0,
          totalCost := contractCost, leverage := 0, leverageDifference := 0,
          deltaExposure := 0, isValid := false,
          validationMessage := some "Negative shares required (not supported)" }
      else
        let totalCost := S * N + O * C
        let deltaExposure := N + D * C
        let actualLeverage := deltaExposure * S / T
        let leverageDifference := |actualLeverage - L|
        { contract := contract, numberOfContracts := C, numberOfShares := N,
          totalCost := totalCost, leverage := actualLeverage,
          leverageDifference := leverageDifference, deltaExposure := deltaExposure,
          isValid := true, validationMessage := none }

/-- Method `CalculationService.calculateForOption` (the exact solve, `solveExact`
in the spec), translated line by line from `calculationService.ts`
lines 134–269. -/
def calculateForOption (contract : OptionContract)
    (stockPrice totalEquity leverage : ℚ) : CalculationResult :=
  let S := stockPrice
  let O := contract.premium * 100
  let D := contract.delta * 100
  let T := totalEquity
  let L := leverage
  if S ≤ 0 ∨ O ≤ 0 ∨ D ≤ 0 ∨ T ≤ 0 ∨ L ≤ 0 then
    { contract := contract, numberOfContracts := 0, numberOfShares := 0,
      totalCost := 0, leverage := 0, leverageDifference := 0, deltaExposure := 0,
      isValid := false, validationMessage := some "Invalid input values" }
  else
    let numerator := T * (L - 1)
    let denominator := S * D - O
    if |denominator| < 1/100 then
      { contract := contract, numberOfContracts := 0, numberOfShares := 0,
        totalCost := 0, leverage := 0, leverageDifference := 0, deltaExposure := 0,
        isValid := false,
        validationMessage := some "Invalid calculation: denominator too close to zero" }
    else
      let C := numerator / denominator
      if C < 0 then
        { contract := contract, numberOfContracts := 0, numberOfShares := 0,
          totalCost := 0, leverage := 0, leverageDifference := 0, deltaExposure := 0,
          isValid := false,
          validationMessage := some "Cannot achieve desired leverage (requires short position)" }
      else
        let N := (L * T) / S - D * C
        if N < 0 then
          { contract := contract, numberOfContracts := 0, numberOfShares := 0,
            totalCost := 0, leverage := 0, leverageDifference := 0, deltaExposure := 0,
            isValid := false,
            validationMessage := some "Negative shares required (not supported)" }
        else
          let totalCost := S * N + O * C
          let deltaExposure := N + D * C
          let actualLeverage := deltaExposure * S / T
          let leverageDifference := |actualLeverage - L|
          if T + 1/100 < totalCost then
            { contract := contract, numberOfContracts := C, numberOfShares := N,
              totalCost := totalCost, leverage := actualLeverage,
              leverageDifference := leverageDifference, deltaExposure := deltaExposure,
              isValid := false,
              validationMessage := some "Total cost exceeds available equity" }
          else
            { contract := contract, numberOfContracts := C, numberOfShares := N,
              totalCost := totalCost, leverage := actualLeverage,
              leverageDifference := leverageDifference, deltaExposure := deltaExposure,
              isValid := true, validationMessage := none }

/-- A sample contract with round rational data, used for concrete runs. -/
def c0 : OptionContract :=
  { strike := 95, expiry := "2025-11-15", premium := 1, delta := 1/2,
    id := "c0", type := "call" }

example : (calculateWithContracts c0 100 1000 2 1).isValid = true := by
  norm_num [calculateWithContracts, c0]

example : (calculateWithContracts c0 100 1000 2 1).totalCost = 1000 := by
  norm_num [calculateWithContracts, c0]

example : (calculateForOption c0 100 1000 2).isValid = true := by
  norm_num [calculateForOption, c0]

example : (calculateForOption c0 100 1000 2).numberOfContracts = 10/49 := by
  norm_num [calculateForOption, c0]

example : ⌊(10:ℚ)/49⌋ = 0 := by norm_num

example : ⌈(10:ℚ)/49⌉ = 1 := by rw [Int.ceil_eq_iff]; norm_num

/-- The contract filter of `CalculationService.calculateAllOptions`
(`calculationService.ts` lines 280–287). -/
def eligibleContract (inputs : UserInputs) (contract : OptionContract) : Bool :=
  contract.expiry == inputs.selectedExpiry &&
  decide (inputs.deltaMin ≤ contract.delta) &&
  decide (contract.delta ≤ inputs.deltaMax) &&
  contract.type == "call"

/-- The loop body of `calculateAllOptions` (`calculationService.ts`
lines 292–338): the list of results one filtered contract pushes onto
`results`.  `Math.floor`/`Math.ceil` of the exact count become `⌊·⌋`/`⌈·⌉`. -/
def candidatesFor (stockPrice totalEquity leverage : ℚ)
    (contract : OptionContract) : List CalculationResult :=
  let exactResult := calculateForOption contract stockPrice totalEquity leverage
  if exactResult.isValid then
    let exactContracts := exactResult.numberOfContracts
    let floorContracts : ℤ := ⌊exactContracts⌋
    let floorPart :=
      if 0 < floorContracts then
        let floorResult :=
          calculateWithContracts contract stockPrice totalEquity leverage (floorContracts : ℚ)
        if floorResult.isValid ∧ 0 < floorResult.numberOfContracts then [floorResult] else []
      else []
    let ceilingContracts : ℤ := ⌈exactContracts⌉
    let ceilingPart :=
      if ceilingContracts ≠ floorContracts ∧ 0 < ceilingContracts then
        let ceilingResult :=
          calculateWithContracts contract stockPrice totalEquity leverage (ceilingContracts : ℚ)
        if ceilingResult.isValid ∧ 0 < ceilingResult.numberOfContracts then [ceilingResult] else []
      else []
    floorPart ++ ceilingPart
  else []

/-- The total preorder realised by the JS sort comparator at
`calculationService.ts` lines 342–348: `a` precedes `b` when the comparator
returns a non-positive value. -/
def resultLE (a b : CalculationResult) : Prop :=
  a.numberOfContracts < b.numberOfContracts ∨
    (a.numberOfContracts = b.numberOfContracts ∧
      a.leverageDifference ≤ b.leverageDifference)

instance : DecidableRel resultLE := fun a b => by
  unfold resultLE; infer_instance

instance : IsTotal CalculationResult resultLE where
  total a b := by
    unfold resultLE
    rcases lt_trichotomy a.numberOfContracts b.numberOfContracts with h | h | h
    · exact Or.inl (Or.inl h)
    · rcases le_total a.leverageDifference b.leverageDifference with h2 | h2
      · exact Or.inl (Or.inr ⟨h, h2⟩)
      · exact Or.inr (Or.inr ⟨h.symm, h2⟩)
    · exact Or.inr (Or.inl h)

instance : IsTrans CalculationResult resultLE where
  trans a b c hab hbc := by
    unfold resultLE at hab hbc ⊢
    rcases hab with h | ⟨h, h2⟩ <;> rcases hbc with h3 | ⟨h3, h4⟩
    · exact Or.inl (h.trans h3)
    · exact Or.inl (h3 ▸ h)
    · exact Or.inl (h ▸ h3)
    · exact Or.inr ⟨h.trans h3, h2.trans h4⟩

/-- Method `CalculationService.calculateAllOptions` (`calculationService.ts`
lines 274–351): filter, generate floor/ceiling candidates, sort.  The JS
`Array.prototype.sort` with a consistent comparator is modelled by a stable
sort under `resultLE`. -/
def calculateAllOptions (contracts : List OptionContract) (stock : StockData)
    (inputs : UserInputs) : List CalculationResult :=
  let filteredContracts := contracts.filter (eligibleContract inputs)
  let results :=
    filteredContracts.flatMap (candidatesFor stock.price inputs.totalEquity inputs.leverage)
  List.insertionSort resultLE results

/-- Method `CalculationService.getOptimalContract` (`calculationService.ts`
lines 356–363): filter to valid results with a positive count and return the
first one (JS `null` becomes `none`). -/
def getOptimalContract (results : List CalculationResult) :
    Option CalculationResult :=
  let validResults :=
    results.filter fun r => r.isValid && decide (0 < r.numberOfContracts)
  validResults.head?

/-- A sample quote and parameter set under which `c0` is eligible and the
exact solve gives `C* = 10/49`, so only the ceiling candidate `C = 1` runs. -/
def stk0 : StockData := { symbol := "TST", price := 100 }

def inp0 : UserInputs :=
  { totalEquity := 1000, leverage := 2, selectedExpiry := "2025-11-15",
    deltaMin := 0, deltaMax := 1 }

/-- Concrete optimizer run: `C* = 10/49`, floor 0 is dropped, ceiling 1
survives, so the output is the single `C = 1` allocation. -/
theorem calculateAllOptions_sample :
    calculateAllOptions [c0] stk0 inp0 = [calculateWithContracts c0 100 1000 2 1] := by
  have hc : ⌈(10:ℚ)/49⌉ = 1 := by rw [Int.ceil_eq_iff]; norm_num
  have hf : ⌊(10:ℚ)/49⌋ = 0 := by norm_num
  norm_num [calculateAllOptions, eligibleContract, candidatesFor, calculateForOption,
    calculateWithContracts, c0, stk0, inp0, List.insertionSort, hc, hf]

example : getOptimalContract [] = none := rfl

/-! ### Branch characterisations of the two solves -/

theorem calculateWithContracts_isValid_iff (c : OptionContract) (S T L C : ℚ) :
    (calculateWithContracts c S T L C).isValid = true ↔
      ¬(S ≤ 0 ∨ c.premium * 100 ≤ 0 ∨ c.delta * 100 ≤ 0 ∨ T ≤ 0 ∨ L ≤ 0) ∧
      ¬(T < c.premium * 100 * C) ∧ ¬((T - c.premium * 100 * C) / S < 0) := by
  simp only [calculateWithContracts]
  split_ifs with h1 h2 h3 <;> simp_all

theorem calculateWithContracts_eq_of_valid (c : OptionContract) (S T L C : ℚ)
    (h : (calculateWithContracts c S T L C).isValid = true) :
    calculateWithContracts c S T L C =
      { contract := c, numberOfContracts := C,
        numberOfShares := (T - c.premium * 100 * C) / S,
        totalCost := S * ((T - c.premium * 100 * C) / S) + c.premium * 100 * C,
        leverage := ((T - c.premium * 100 * C) / S + c.delta * 100 * C) * S / T,
        leverageDifference :=
          |((T - c.premium * 100 * C) / S + c.delta * 100 * C) * S / T - L|,
        deltaExposure := (T - c.premium * 100 * C) / S + c.delta * 100 * C,
        isValid := true, validationMessage := none } := by
  simp only [calculateWithContracts] at h ⊢
  split_ifs at h ⊢
  all_goals simp_all

theorem calculateForOption_eq_of_valid (c : OptionContract) (S T L : ℚ)
    (h : (calculateForOption c S T L).isValid = true) :
    calculateForOption c S T L =
      { contract := c,
        numberOfContracts := T * (L - 1) / (S * (c.delta * 100) - c.premium * 100),
        numberOfShares :=
          L * T / S -
            c.delta * 100 * (T * (L - 1) / (S * (c.delta * 100) - c.premium * 100)),
        totalCost :=
          S * (L * T / S -
              c.delta * 100 * (T * (L - 1) / (S * (c.delta * 100) - c.premium * 100))) +
            c.premium * 100 * (T * (L - 1) / (S * (c.delta * 100) - c.premium * 100)),
        leverage :=
          (L * T / S -
              c.delta * 100 * (T * (L - 1) / (S * (c.delta * 100) - c.premium * 100)) +
            c.delta * 100 * (T * (L - 1) / (S * (c.delta * 100) - c.premium * 100))) * S / T,
        leverageDifference :=
          |(L * T / S -
              c.delta * 100 * (T * (L - 1) / (S * (c.delta * 100) - c.premium * 100)) +
            c.delta * 100 * (T * (L - 1) / (S * (c.delta * 100) - c.premium * 100))) * S / T - L|,
        deltaExposure :=
          L * T / S -
              c.delta * 100 * (T * (L - 1) / (S * (c.delta * 100) - c.premium * 100)) +
            c.delta * 100 * (T * (L - 1) / (S * (c.delta * 100) - c.premium * 100)),
        isValid := true, validationMessage := none } := by
  simp only [calculateForOption] at h ⊢
  split_ifs at h ⊢
  all_goals simp_all

theorem calculateForOption_valid_pos (c : OptionContract) (S T L : ℚ)
    (h : (calculateForOption c S T L).isValid = true) :
    0 < S ∧ 0 < c.premium * 100 ∧ 0 < c.delta * 100 ∧ 0 < T ∧ 0 < L ∧
      S * (c.delta * 100) - c.premium * 100 ≠ 0 := by
  simp only [calculateForOption] at h
  split_ifs at h with h1 h2 h3 h4 h5
  push_neg at h1
  refine ⟨h1.1, h1.2.1, h1.2.2.1, h1.2.2.2.1, h1.2.2.2.2, ?_⟩
  intro hz
  rw [hz] at h2
  norm_num at h2

theorem calculateWithContracts_valid_pos (c : OptionContract) (S T L C : ℚ)
    (h : (calculateWithContracts c S T L C).isValid = true) :
    0 < S ∧ 0 < c.premium * 100 ∧ 0 < c.delta * 100 ∧ 0 < T ∧ 0 < L := by
  have h1 := ((calculateWithContracts_isValid_iff c S T L C).mp h).1
  push_neg at h1
  exact ⟨h1.1, h1.2.1, h1.2.2.1, h1.2.2.2.1, h1.2.2.2.2⟩

/-! ### Claims -/

/-- C1.  Full-deployment invariant: every `valid=true` result of the two
solves spends exactly the equity `T` (exact rational arithmetic), hence also
within the 0.01 tolerance. -/
theorem C1_full_deployment (c : OptionContract) (S T L C : ℚ) :
    ((calculateWithContracts c S T L C).isValid = true →
      (calculateWithContracts c S T L C).totalCost = T ∧
      |(calculateWithContracts c S T L C).totalCost - T| ≤ 1/100) ∧
    ((calculateForOption c S T L).isValid = true →
      (calculateForOption c S T L).totalCost = T ∧
      |(calculateForOption c S T L).totalCost - T| ≤ 1/100) := by
  constructor
  · intro h
    have hS : (0:ℚ) < S := (calculateWithContracts_valid_pos c S T L C h).1
    have heq : (calculateWithContracts c S T L C).totalCost = T := by
      rw [calculateWithContracts_eq_of_valid c S T L C h]
      show S * ((T - c.premium * 100 * C) / S) + c.premium * 100 * C = T
      field_simp
    refine ⟨heq, ?_⟩
    rw [heq]
    simp only [sub_self, abs_zero]
    norm_num
  · intro h
    obtain ⟨hS, hO, hD, hT, hL, hden⟩ := calculateForOption_valid_pos c S T L h
    have heq : (calculateForOption c S T L).totalCost = T := by
      rw [calculateForOption_eq_of_valid c S T L h]
      show S * (L * T / S -
          c.delta * 100 * (T * (L - 1) / (S * (c.delta * 100) - c.premium * 100))) +
          c.premium * 100 * (T * (L - 1) / (S * (c.delta * 100) - c.premium * 100)) = T
      field_simp
      ring
    refine ⟨heq, ?_⟩
    rw [heq]
    simp only [sub_self, abs_zero]
    norm_num

/-- Witness for C1 at a concrete valid input. -/
theorem C1_full_deployment_witness :
    (calculateWithContracts c0 100 1000 2 3).isValid = true ∧
    (calculateWithContracts c0 100 1000 2 3).totalCost = 1000 :=
  ⟨by norm_num [calculateWithContracts, c0],
   ((C1_full_deployment c0 100 1000 2 3).1 (by norm_num [calculateWithContracts, c0])).1⟩

/-- C2.  Postcondition of the exact solve: a `valid=true` result carries
exactly the closed-form fields `C = T(L−1)/(SD−O)`, `N = LT/S − DC`,
`totalCost = SN + OC`, `achievedLeverage = (N + DC)S/T`,
`leverageGap = |achievedLeverage − L|`. -/
theorem C2_solveExact_postcondition (c : OptionContract) (S T L : ℚ)
    (hS : 0 < S) (hT : 0 < T) (hL : 0 < L)
    (hO : 0 < c.premium * 100) (hD : 0 < c.delta * 100)
    (h : (calculateForOption c S T L).isValid = true) :
    (calculateForOption c S T L).numberOfContracts
        = T * (L - 1) / (S * (c.delta * 100) - c.premium * 100) ∧
    (calculateForOption c S T L).numberOfShares
        = L * T / S - c.delta * 100 * (calculateForOption c S T L).numberOfContracts ∧
    (calculateForOption c S T L).totalCost
        = S * (calculateForOption c S T L).numberOfShares
          + c.premium * 100 * (calculateForOption c S T L).numberOfContracts ∧
    (calculateForOption c S T L).leverage
        = ((calculateForOption c S T L).numberOfShares
            + c.delta * 100 * (calculateForOption c S T L).numberOfContracts) * S / T ∧
    (calculateForOption c S T L).leverageDifference
        = |(calculateForOption c S T L).leverage - L| := by
  rw [calculateForOption_eq_of_valid c S T L h]
  exact ⟨rfl, rfl, rfl, rfl, rfl⟩

/-- Witness for C2 at a concrete valid input. -/
theorem C2_solveExact_postcondition_witness :
    (calculateForOption c0 100 1000 2).numberOfContracts
        = 1000 * (2 - 1) / (100 * (c0.delta * 100) - c0.premium * 100) ∧
    (calculateForOption c0 100 1000 2).numberOfShares
        = 2 * 1000 / 100 - c0.delta * 100 * (calculateForOption c0 100 1000 2).numberOfContracts :=
  ⟨(C2_solveExact_postcondition c0 100 1000 2 (by norm_num) (by norm_num) (by norm_num)
      (by norm_num [c0]) (by norm_num [c0]) (by norm_num [calculateForOption, c0])).1,
   (C2_solveExact_postcondition c0 100 1000 2 (by norm_num) (by norm_num) (by norm_num)
      (by norm_num [c0]) (by norm_num [c0]) (by norm_num [calculateForOption, c0])).2.1⟩

theorem calculateWithContracts_valid_count (c : OptionContract) (S T L C : ℚ)
    (h : (calculateWithContracts c S T L C).isValid = true) :
    (calculateWithContracts c S T L C).numberOfContracts = C := by
  rw [calculateWithContracts_eq_of_valid c S T L C h]

theorem calculateWithContracts_contract (c : OptionContract) (S T L C : ℚ) :
    (calculateWithContracts c S T L C).contract = c := by
  simp only [calculateWithContracts]
  split_ifs <;> rfl

/-- C7.  Under positive inputs, the exact solve reports the
degenerate-denominator failure exactly when `|S·D − O| < 0.01`. -/
theorem C7_degenerate_denominator (c : OptionContract) (S T L : ℚ)
    (hS : 0 < S) (hT : 0 < T) (hL : 0 < L)
    (hO : 0 < c.premium * 100) (hD : 0 < c.delta * 100) :
    ((calculateForOption c S T L).isValid = false ∧
      (calculateForOption c S T L).validationMessage =
        some "Invalid calculation: denominator too close to zero") ↔
      |S * (c.delta * 100) - c.premium * 100| < 1/100 := by
  have hvals : ¬(S ≤ 0 ∨ c.premium * 100 ≤ 0 ∨ c.delta * 100 ≤ 0 ∨ T ≤ 0 ∨ L ≤ 0) := by
    push_neg
    exact ⟨hS, hO, hD, hT, hL⟩
  simp only [calculateForOption]
  split_ifs with h1 h2 h3 h4 h5 <;> simp_all

/-- A contract making the denominator vanish at `S = 2`:
`S·D − O = 2·50 − 100 = 0`. -/
def cDeg : OptionContract :=
  { strike := 95, expiry := "2025-11-15", premium := 1, delta := 1/2,
    id := "cDeg", type := "call" }

/-- Witness for C7: `S·D = O` exactly, and the solve indeed reports the
degenerate denominator. -/
theorem C7_degenerate_denominator_witness :
    (calculateForOption cDeg 2 1000 2).isValid = false ∧
    (calculateForOption cDeg 2 1000 2).validationMessage =
      some "Invalid calculation: denominator too close to zero" :=
  (C7_degenerate_denominator cDeg 2 1000 2 (by norm_num) (by norm_num) (by norm_num)
      (by norm_num [cDeg]) (by norm_num [cDeg])).mpr (by norm_num [cDeg])

/-- C10.  Leverage noninterference of the fixed-count solve: two positive
target leverages produce results agreeing on every field except
`leverageDifference`. -/
theorem C10_leverage_noninterference (c : OptionContract) (S T C L1 L2 : ℚ)
    (h1 : 0 < L1) (h2 : 0 < L2) :
    (calculateWithContracts c S T L1 C).contract
        = (calculateWithContracts c S T L2 C).contract ∧
    (calculateWithContracts c S T L1 C).numberOfContracts
        = (calculateWithContracts c S T L2 C).numberOfContracts ∧
    (calculateWithContracts c S T L1 C).numberOfShares
        = (calculateWithContracts c S T L2 C).numberOfShares ∧
    (calculateWithContracts c S T L1 C).totalCost
        = (calculateWithContracts c S T L2 C).totalCost ∧
    (calculateWithContracts c S T L1 C).leverage
        = (calculateWithContracts c S T L2 C).leverage ∧
    (calculateWithContracts c S T L1 C).deltaExposure
        = (calculateWithContracts c S T L2 C).deltaExposure ∧
    (calculateWithContracts c S T L1 C).isValid
        = (calculateWithContracts c S T L2 C).isValid ∧
    (calculateWithContracts c S T L1 C).validationMessage
        = (calculateWithContracts c S T L2 C).validationMessage := by
  have hL1 : ¬ L1 ≤ 0 := not_le.mpr h1
  have hL2 : ¬ L2 ≤ 0 := not_le.mpr h2
  have hcond : (S ≤ 0 ∨ c.premium * 100 ≤ 0 ∨ c.delta * 100 ≤ 0 ∨ T ≤ 0 ∨ L1 ≤ 0)
      ↔ (S ≤ 0 ∨ c.premium * 100 ≤ 0 ∨ c.delta * 100 ≤ 0 ∨ T ≤ 0 ∨ L2 ≤ 0) := by
    tauto
  simp only [calculateWithContracts, hcond]
  split_ifs <;> simp

/-- Witness for C10 at concrete positive leverages 2 and 3. -/
theorem C10_leverage_noninterference_witness :
    (calculateWithContracts c0 100 1000 2 1).totalCost
        = (calculateWithContracts c0 100 1000 3 1).totalCost ∧
    (calculateWithContracts c0 100 1000 2 1).isValid
        = (calculateWithContracts c0 100 1000 3 1).isValid :=
  ⟨(C10_leverage_noninterference c0 100 1000 1 2 3 (by norm_num) (by norm_num)).2.2.2.1,
   (C10_leverage_noninterference c0 100 1000 1 2 3 (by norm_num) (by norm_num)).2.2.2.2.2.2.1⟩

/-- C8 counterexample: `calculateWithContracts` never validates the given
count, so a negative `C = −1` (negative contract cost, which only enlarges
the share budget) yields a `valid=true` result with `contractsCount < 0`. -/
theorem C8_counterexample :
    (calculateWithContracts c0 100 1000 2 (-1)).isValid = true ∧
    (calculateWithContracts c0 100 1000 2 (-1)).numberOfContracts < 0 := by
  norm_num [calculateWithContracts, c0]

theorem calculateForOption_valid_nonneg (c : OptionContract) (S T L : ℚ)
    (h : (calculateForOption c S T L).isValid = true) :
    0 ≤ T * (L - 1) / (S * (c.delta * 100) - c.premium * 100) ∧
    0 ≤ L * T / S -
        c.delta * 100 * (T * (L - 1) / (S * (c.delta * 100) - c.premium * 100)) := by
  simp only [calculateForOption] at h
  split_ifs at h with h1 h2 h3 h4 h5
  exact ⟨not_lt.mp h3, not_lt.mp h4⟩

/-- C8 amended.  Valid results of the exact solve always have non-negative
counts and shares; valid results of the fixed-count solve always have
non-negative shares, and a non-negative count whenever the count passed in
is non-negative (the source never checks the sign of the given count). -/
theorem C8_nonneg_amended (c : OptionContract) (S T L C : ℚ) :
    ((calculateForOption c S T L).isValid = true →
      0 ≤ (calculateForOption c S T L).numberOfContracts ∧
      0 ≤ (calculateForOption c S T L).numberOfShares) ∧
    ((calculateWithContracts c S T L C).isValid = true →
      0 ≤ (calculateWithContracts c S T L C).numberOfShares) ∧
    (0 ≤ C → (calculateWithContracts c S T L C).isValid = true →
      0 ≤ (calculateWithContracts c S T L C).numberOfContracts) := by
  refine ⟨?_, ?_, ?_⟩
  · intro h
    rw [calculateForOption_eq_of_valid c S T L h]
    exact calculateForOption_valid_nonneg c S T L h
  · intro h
    rw [calculateWithContracts_eq_of_valid c S T L C h]
    exact not_lt.mp ((calculateWithContracts_isValid_iff c S T L C).mp h).2.2
  · intro hC h
    rw [calculateWithContracts_valid_count c S T L C h]
    exact hC

/-- Witness for C8 amended at a concrete valid input. -/
theorem C8_nonneg_amended_witness :
    0 ≤ (calculateForOption c0 100 1000 2).numberOfContracts ∧
    0 ≤ (calculateWithContracts c0 100 1000 2 1).numberOfShares ∧
    0 ≤ (calculateWithContracts c0 100 1000 2 1).numberOfContracts :=
  ⟨((C8_nonneg_amended c0 100 1000 2 1).1 (by norm_num [calculateForOption, c0])).1,
   (C8_nonneg_amended c0 100 1000 2 1).2.1 (by norm_num [calculateWithContracts, c0]),
   (C8_nonneg_amended c0 100 1000 2 1).2.2 (by norm_num)
     (by norm_num [calculateWithContracts, c0])⟩

/-- C9 counterexample: passing the fractional count `C = 1/2` produces a
`valid=true` result whose `contractsCount = 1/2` is not an integer (it is
distinct from its own floor). -/
theorem C9_counterexample :
    (calculateWithContracts c0 100 1000 2 (1/2)).isValid = true ∧
    (calculateWithContracts c0 100 1000 2 (1/2)).numberOfContracts = 1/2 ∧
    (calculateWithContracts c0 100 1000 2 (1/2)).numberOfContracts ≠
      (⌊(calculateWithContracts c0 100 1000 2 (1/2)).numberOfContracts⌋ : ℚ) := by
  refine ⟨?_, ?_, ?_⟩ <;> norm_num [calculateWithContracts, c0]

/-! ### Optimizer helpers -/

theorem mem_candidatesFor {S T L : ℚ} {c : OptionContract} {r : CalculationResult}
    (h : r ∈ candidatesFor S T L c) :
    ∃ k : ℤ, (k = ⌊(calculateForOption c S T L).numberOfContracts⌋ ∨
        k = ⌈(calculateForOption c S T L).numberOfContracts⌉) ∧ 0 < k ∧
      r = calculateWithContracts c S T L (k : ℚ) ∧
      r.isValid = true ∧ 0 < r.numberOfContracts := by
  simp only [candidatesFor, List.mem_append, List.mem_ite_nil_right,
    List.mem_singleton] at h
  obtain ⟨hv, h | h⟩ := h
  · obtain ⟨hf, ⟨hvf, hpos⟩, rfl⟩ := h
    exact ⟨_, Or.inl rfl, hf, rfl, hvf, hpos⟩
  · obtain ⟨⟨hne, hc⟩, ⟨hvc, hpos⟩, rfl⟩ := h
    exact ⟨_, Or.inr rfl, hc, rfl, hvc, hpos⟩

theorem candidatesFor_eq_nil_of_invalid {S T L : ℚ} {c : OptionContract}
    (h : ¬ (calculateForOption c S T L).isValid = true) :
    candidatesFor S T L c = [] := by
  simp only [candidatesFor]
  rw [if_neg]
  simpa using h

theorem mem_calculateAllOptions {contracts : List OptionContract} {stock : StockData}
    {inputs : UserInputs} {r : CalculationResult}
    (h : r ∈ calculateAllOptions contracts stock inputs) :
    ∃ c ∈ contracts, eligibleContract inputs c = true ∧
      r ∈ candidatesFor stock.price inputs.totalEquity inputs.leverage c := by
  simp only [calculateAllOptions] at h
  rw [List.mem_insertionSort] at h
  rw [List.mem_flatMap] at h
  obtain ⟨c, hc, hr⟩ := h
  rw [List.mem_filter] at hc
  exact ⟨c, hc.1, hc.2, hr⟩

theorem mem_candidatesFor_of (S T L : ℚ) (c : OptionContract) (k : ℤ)
    (hv : (calculateForOption c S T L).isValid = true)
    (hk : k = ⌊(calculateForOption c S T L).numberOfContracts⌋ ∨
        k = ⌈(calculateForOption c S T L).numberOfContracts⌉)
    (hkpos : 0 < k)
    (hvalid : (calculateWithContracts c S T L (k : ℚ)).isValid = true)
    (hpos : 0 < (calculateWithContracts c S T L (k : ℚ)).numberOfContracts) :
    calculateWithContracts c S T L (k : ℚ) ∈ candidatesFor S T L c := by
  simp only [candidatesFor, List.mem_append, List.mem_ite_nil_right,
    List.mem_singleton]
  refine ⟨hv, ?_⟩
  rcases hk with rfl | rfl
  · exact Or.inl ⟨hkpos, ⟨hvalid, hpos⟩, rfl⟩
  · by_cases hceq : ⌈(calculateForOption c S T L).numberOfContracts⌉ =
        ⌊(calculateForOption c S T L).numberOfContracts⌋
    · refine Or.inl ⟨?_, ?_, ?_⟩
      · rw [← hceq]; exact hkpos
      · rw [hceq] at hvalid hpos; exact ⟨hvalid, hpos⟩
      · rw [hceq]
    · exact Or.inr ⟨⟨hceq, hkpos⟩, ⟨hvalid, hpos⟩, rfl⟩

theorem candidatesFor_length_le (S T L : ℚ) (c : OptionContract) :
    (candidatesFor S T L c).length ≤ 2 := by
  simp only [candidatesFor]
  split_ifs <;> simp

theorem candidatesFor_length_le_one (S T L : ℚ) (c : OptionContract)
    (h : ⌊(calculateForOption c S T L).numberOfContracts⌋ =
        ⌈(calculateForOption c S T L).numberOfContracts⌉) :
    (candidatesFor S T L c).length ≤ 1 := by
  simp only [candidatesFor]
  split_ifs with h1 h2 h3 h4 h5 <;> simp_all

/-- C3.  Candidate generation: an invalid exact solve contributes nothing; a
valid exact solve with ideal count `C*` contributes exactly the
floor/ceiling allocations that are positive, valid, and have a positive
count (with no duplicate when floor equals ceiling, hence at most two per
contract); the optimizer output is exactly the candidates of the filtered
contracts (up to the final sort), and every emitted result is valid. -/
theorem C3_candidate_generation (contracts : List OptionContract)
    (stock : StockData) (inputs : UserInputs) (S T L : ℚ) (c : OptionContract) :
    (¬ (calculateForOption c S T L).isValid = true → candidatesFor S T L c = []) ∧
    (∀ r, r ∈ candidatesFor S T L c ↔
      ((calculateForOption c S T L).isValid = true ∧
        ∃ k : ℤ, (k = ⌊(calculateForOption c S T L).numberOfContracts⌋ ∨
            k = ⌈(calculateForOption c S T L).numberOfContracts⌉) ∧ 0 < k ∧
          r = calculateWithContracts c S T L (k : ℚ) ∧
          r.isValid = true ∧ 0 < r.numberOfContracts)) ∧
    (candidatesFor S T L c).length ≤ 2 ∧
    (⌊(calculateForOption c S T L).numberOfContracts⌋ =
        ⌈(calculateForOption c S T L).numberOfContracts⌉ →
      (candidatesFor S T L c).length ≤ 1) ∧
    (calculateAllOptions contracts stock inputs).Perm
      ((contracts.filter (eligibleContract inputs)).flatMap
        (candidatesFor stock.price inputs.totalEquity inputs.leverage)) ∧
    (∀ r ∈ calculateAllOptions contracts stock inputs, r.isValid = true) := by
  refine ⟨candidatesFor_eq_nil_of_invalid, ?_, candidatesFor_length_le S T L c,
    candidatesFor_length_le_one S T L c, ?_, ?_⟩
  · intro r
    constructor
    · intro hmem
      have hv : (calculateForOption c S T L).isValid = true := by
        by_contra hv
        rw [candidatesFor_eq_nil_of_invalid hv] at hmem
        simp at hmem
      exact ⟨hv, mem_candidatesFor hmem⟩
    · rintro ⟨hv, k, hk, hkpos, rfl, hvalid, hpos⟩
      exact mem_candidatesFor_of S T L c k hv hk hkpos hvalid hpos
  · simp only [calculateAllOptions]
    exact List.perm_insertionSort resultLE _
  · intro r hr
    obtain ⟨c', _, _, hmem⟩ := mem_calculateAllOptions hr
    obtain ⟨k, _, _, rfl, hvalid, _⟩ := mem_candidatesFor hmem
    exact hvalid

/-- Witness for C3: the degenerate contract contributes no candidates, and
the sample run's single output element is valid. -/
theorem C3_candidate_generation_witness :
    candidatesFor 2 1000 2 cDeg = [] ∧
    (calculateWithContracts c0 100 1000 2 1).isValid = true :=
  ⟨(C3_candidate_generation [c0] stk0 inp0 2 1000 2 cDeg).1
      (by norm_num [calculateForOption, cDeg]),
   (C3_candidate_generation [c0] stk0 inp0 100 1000 2 c0).2.2.2.2.2
      (calculateWithContracts c0 100 1000 2 1)
      (by rw [calculateAllOptions_sample]; exact List.mem_singleton_self _)⟩

/-- C4.  Sort order: adjacent results in the optimizer output are ordered by
contract count, ties broken by leverage gap. -/
theorem C4_sort_order (contracts : List OptionContract) (stock : StockData)
    (inputs : UserInputs) :
    (calculateAllOptions contracts stock inputs).Chain'
      (fun a b => a.numberOfContracts < b.numberOfContracts ∨
        (a.numberOfContracts = b.numberOfContracts ∧
          a.leverageDifference ≤ b.leverageDifference)) := by
  have hs : List.Sorted resultLE (calculateAllOptions contracts stock inputs) := by
    simp only [calculateAllOptions]
    exact List.sorted_insertionSort resultLE _
  exact List.Pairwise.chain' hs

/-- Two hand-built allocation results used to exercise `getOptimalContract`
on an unsorted list: both valid with positive counts, `resA` needing three
contracts and `resB` only one. -/
def resA : CalculationResult :=
  { contract := c0, numberOfContracts := 3, numberOfShares := 1, totalCost := 1000,
    leverage := 2, leverageDifference := 1/10, deltaExposure := 5, isValid := true,
    validationMessage := none }

def resB : CalculationResult :=
  { resA with numberOfContracts := 1 }

/-- C5 counterexample: on the unsorted list `[resA, resB]` the source's
`getOptimalContract` returns the first valid element `resA`, even though
`resB` is valid with a strictly smaller contract count — it filters but
never re-sorts. -/
theorem C5_counterexample :
    getOptimalContract [resA, resB] = some resA ∧
    resA.isValid = true ∧ 0 < resA.numberOfContracts ∧
    resB.isValid = true ∧ 0 < resB.numberOfContracts ∧
    resB.numberOfContracts < resA.numberOfContracts := by
  refine ⟨?_, ?_, ?_, ?_, ?_, ?_⟩
  · norm_num [getOptimalContract, resA, resB, List.filter_cons]
  · rfl
  · norm_num [resA]
  · rfl
  · norm_num [resB, resA]
  · norm_num [resB, resA]

theorem head_filter_eq_find (p : CalculationResult → Bool)
    (l : List CalculationResult) : (l.filter p).head? = l.find? p := by
  induction l with
  | nil => rfl
  | cons a t ih =>
    by_cases h : p a
    · simp [List.filter_cons, List.find?_cons, h]
    · simp [List.filter_cons, List.find?_cons, h, ih]

/-- C5 amended.  `getOptimalContract` returns `none` exactly when no element
is valid with a positive count; otherwise it returns the first such element
in input order (it equals `find?` of the validity-and-positive-count
predicate), which is minimal under the (count, gap) ordering whenever
the input list is already sorted by it — as the lists produced by
`calculateAllOptions` are.  On unsorted input it does not re-sort. -/
theorem C5_pickOptimal_amended (results : List CalculationResult) :
    (getOptimalContract results = none ↔
      ∀ r ∈ results, ¬(r.isValid = true ∧ 0 < r.numberOfContracts)) ∧
    (∀ r, getOptimalContract results = some r →
      r ∈ results ∧ r.isValid = true ∧ 0 < r.numberOfContracts) ∧
    (results.Pairwise resultLE →
      ∀ r, getOptimalContract results = some r →
        ∀ s ∈ results, s.isValid = true → 0 < s.numberOfContracts →
          resultLE r s) ∧
    (getOptimalContract results =
      results.find? fun r => r.isValid && decide (0 < r.numberOfContracts)) := by
  refine ⟨?_, ?_, ?_, ?_⟩
  · simp only [getOptimalContract, List.head?_eq_none_iff, List.filter_eq_nil_iff,
      Bool.and_eq_true, decide_eq_true_eq, not_and]
  · intro r hsome
    simp only [getOptimalContract] at hsome
    cases hfil : results.filter
        (fun x => x.isValid && decide (0 < x.numberOfContracts)) with
    | nil => rw [hfil] at hsome; simp at hsome
    | cons a t =>
      rw [hfil] at hsome
      simp only [List.head?_cons, Option.some.injEq] at hsome
      have ha : a ∈ results.filter
          (fun x => x.isValid && decide (0 < x.numberOfContracts)) := by
        rw [hfil]; exact List.mem_cons_self _ _
      rw [hsome] at ha
      rw [List.mem_filter] at ha
      have hcond := ha.2
      simp only [Bool.and_eq_true, decide_eq_true_eq] at hcond
      exact ⟨ha.1, hcond.1, hcond.2⟩
  · intro hpair r hsome s hs hsv hsp
    simp only [getOptimalContract] at hsome
    have hpf : (results.filter
        (fun x => x.isValid && decide (0 < x.numberOfContracts))).Pairwise resultLE :=
      hpair.filter _
    have hsf : s ∈ results.filter
        (fun x => x.isValid && decide (0 < x.numberOfContracts)) := by
      rw [List.mem_filter]
      exact ⟨hs, by simp [hsv, hsp]⟩
    cases hfil : results.filter
        (fun x => x.isValid && decide (0 < x.numberOfContracts)) with
    | nil => rw [hfil] at hsome; simp at hsome
    | cons a t =>
      rw [hfil] at hsome
      simp only [List.head?_cons, Option.some.injEq] at hsome
      rw [hfil] at hsf hpf
      rw [List.pairwise_cons] at hpf
      rw [← hsome]
      rcases List.mem_cons.mp hsf with rfl | hst
      · exact Or.inr ⟨rfl, le_refl _⟩
      · exact hpf.1 s hst
  · simp only [getOptimalContract]
    exact head_filter_eq_find _ results

/-- Witness for C5 amended: on the sorted list `[resB, resA]` the returned
element `resB` is minimal, and it is the `find?`-first valid element. -/
theorem C5_pickOptimal_amended_witness :
    getOptimalContract [resB, resA] = some resB ∧ resultLE resB resA ∧
    getOptimalContract [resB, resA] =
      List.find? (fun r => r.isValid && decide (0 < r.numberOfContracts))
        [resB, resA] := by
  have hpair : ([resB, resA] : List CalculationResult).Pairwise resultLE := by
    refine List.pairwise_cons.mpr ⟨?_, List.pairwise_singleton _ _⟩
    intro s hs
    rw [List.mem_singleton] at hs
    subst hs
    exact Or.inl (by norm_num [resA, resB])
  have hsome : getOptimalContract [resB, resA] = some resB := by
    norm_num [getOptimalContract, resA, resB, List.filter_cons]
  refine ⟨hsome, ?_, (C5_pickOptimal_amended [resB, resA]).2.2.2⟩
  exact (C5_pickOptimal_amended [resB, resA]).2.2.1 hpair resB hsome resA
    (by simp [List.mem_cons]) rfl (by norm_num [resA])

/-- C6.  Filter correctness: every optimizer result's contract matches the
selected expiry, lies inside the delta band, and is a call. -/
theorem C6_filter_correctness (contracts : List OptionContract)
    (stock : StockData) (inputs : UserInputs) :
    ∀ r ∈ calculateAllOptions contracts stock inputs,
      r.contract.expiry = inputs.selectedExpiry ∧
      inputs.deltaMin ≤ r.contract.delta ∧ r.contract.delta ≤ inputs.deltaMax ∧
      r.contract.type = "call" := by
  intro r hr
  obtain ⟨c, _, helig, hmem⟩ := mem_calculateAllOptions hr
  obtain ⟨k, _, _, rfl, _, _⟩ := mem_candidatesFor hmem
  rw [calculateWithContracts_contract]
  simp only [eligibleContract, Bool.and_eq_true, decide_eq_true_eq,
    beq_iff_eq] at helig
  exact ⟨helig.1.1.1, helig.1.1.2, helig.1.2, helig.2⟩

/-- Witness for C6 on the sample optimizer run. -/
theorem C6_filter_correctness_witness :
    (calculateWithContracts c0 100 1000 2 1).contract.expiry = inp0.selectedExpiry ∧
    inp0.deltaMin ≤ (calculateWithContracts c0 100 1000 2 1).contract.delta ∧
    (calculateWithContracts c0 100 1000 2 1).contract.delta ≤ inp0.deltaMax ∧
    (calculateWithContracts c0 100 1000 2 1).contract.type = "call" :=
  C6_filter_correctness [c0] stk0 inp0 (calculateWithContracts c0 100 1000 2 1)
    (by rw [calculateAllOptions_sample]; exact List.mem_singleton_self _)

/-- C9 amended.  The fixed-count solve echoes the count it was given, so a
`valid=true` result has an integer non-negative `contractsCount` exactly when
the count passed in is a non-negative integer; all optimizer outputs carry a
positive integer count, but a fractional or negative `C` passed directly is
echoed unchanged. -/
theorem C9_integer_amended (c : OptionContract) (S T L : ℚ) (k : ℤ)
    (contracts : List OptionContract) (stock : StockData) (inputs : UserInputs) :
    ((calculateWithContracts c S T L (k : ℚ)).isValid = true → 0 ≤ k →
      ∃ m : ℤ, 0 ≤ m ∧
        (calculateWithContracts c S T L (k : ℚ)).numberOfContracts = (m : ℚ)) ∧
    (∀ r ∈ calculateAllOptions contracts stock inputs,
      ∃ m : ℤ, 0 < m ∧ r.numberOfContracts = (m : ℚ)) := by
  constructor
  · intro h hk
    exact ⟨k, hk, calculateWithContracts_valid_count c S T L _ h⟩
  · intro r hr
    obtain ⟨c', _, _, hmem⟩ := mem_calculateAllOptions hr
    obtain ⟨m, _, hm, rfl, hvalid, _⟩ := mem_candidatesFor hmem
    exact ⟨m, hm, calculateWithContracts_valid_count _ _ _ _ _ hvalid⟩

/-- Witness for C9 amended on the sample optimizer run. -/
theorem C9_integer_amended_witness :
    ∃ m : ℤ, 0 < m ∧
      (calculateWithContracts c0 100 1000 2 1).numberOfContracts = (m : ℚ) :=
  (C9_integer_amended c0 100 1000 2 1 [c0] stk0 inp0).2
    (calculateWithContracts c0 100 1000 2 1)
    (by rw [calculateAllOptions_sample]; exact List.mem_singleton_self _)
